import Mathlib

/-!
Verification of the kernel and covariance helpers of the ml-from-scratch
repository.

The repository consists of four pure numeric functions:

* `src/ml/supervised/kernels.py`
  - `linear_kernel(**kwargs)`      : `np.inner(x1, x2)`
  - `polynomial_kernel(const, pow, **kwargs)` : `(np.inner(x1, x2) + const) ** pow`
  - `rbf_kernel(gamma, **kwargs)`  : `np.exp(-gamma * np.linalg.norm(x1 - x2) ** 2)`
* `src/ml/unsupervised/utils.py`
  - `cov_matrix(X, Y=None)` : `(1 / (n_samples - 1)) * (X - X.mean(axis=0)).T.dot(Y - Y.mean(axis=0))`

Vectors (1-D numpy arrays) are embedded as `List ℝ`, datasets (2-D numpy
arrays with rows = samples and columns = features) as `Matrix (Fin n) (Fin k) ℝ`.
Floating-point numbers are idealised as real numbers.  `np.inner` on two
equal-length 1-D arrays is the sum of elementwise products; on unequal
lengths numpy raises, which is outside the claims considered here (all of
them assume equal lengths), so the list embedding uses `List.zipWith`,
which agrees with numpy on the equal-length inputs the claims quantify over.

In `cov_matrix`, `n_samples = np.shape(X)[0]` is a Python `int`, and the
true division `1 / (n_samples - 1)` raises `ZeroDivisionError` when the
divisor is the integer `0` (that is, when `n_samples = 1`).  The embedding
therefore returns an `Option`: `none` is the propagated division failure,
`some` the computed matrix.
-/

noncomputable section

open scoped Matrix

/-- `np.inner` on two 1-D arrays: the sum of the elementwise products
(the source comment notes it equals `(x1*x2).sum()`). -/
def np_inner (x1 x2 : List ℝ) : ℝ :=
  (List.zipWith (fun a b => a * b) x1 x2).sum

/-- `linear_kernel(**kwargs)` from `kernels.py`: `np.inner(kwargs['x1'], kwargs['x2'])`. -/
def linear_kernel (x1 x2 : List ℝ) : ℝ :=
  np_inner x1 x2

/-- `polynomial_kernel(const, pow, **kwargs)` from `kernels.py`:
`(np.inner(kwargs['x1'], kwargs['x2']) + const) ** pow`.
The exponent is a real scalar; real exponentiation is `Real.rpow`. -/
def polynomial_kernel (const pw : ℝ) (x1 x2 : List ℝ) : ℝ :=
  (np_inner x1 x2 + const) ^ pw

/-- `np.linalg.norm` on a 1-D array: the Euclidean (l2) norm,
the square root of the sum of the squared entries. -/
def np_linalg_norm (v : List ℝ) : ℝ :=
  Real.sqrt ((v.map fun a => a ^ 2).sum)

/-- `rbf_kernel(gamma, **kwargs)` from `kernels.py`:
`dist = np.linalg.norm(x1 - x2) ** 2` and the result is `np.exp(-gamma * dist)`.
`x1 - x2` is the elementwise difference of the two arrays. -/
def rbf_kernel (gamma : ℝ) (x1 x2 : List ℝ) : ℝ :=
  Real.exp (-gamma * np_linalg_norm (List.zipWith (fun a b => a - b) x1 x2) ^ 2)

/-- Columnwise mean, `X.mean(axis=0)`: the mean of column `j` of `X`. -/
def colMean {n k : ℕ} (X : Matrix (Fin n) (Fin k) ℝ) (j : Fin k) : ℝ :=
  (∑ i, X i j) / n

/-- The centered dataset `X - X.mean(axis=0)` (numpy broadcasts the row of
column means over all rows). -/
def centered {n k : ℕ} (X : Matrix (Fin n) (Fin k) ℝ) : Matrix (Fin n) (Fin k) ℝ :=
  Matrix.of fun i j => X i j - colMean X j

/-- `cov_matrix(X, Y)` from `utils.py` with both arguments supplied:
`(1 / (n_samples - 1)) * (X - X.mean(axis=0)).T.dot(Y - Y.mean(axis=0))`.
`n_samples - 1` is a Python integer, so when it is `0` the true division
`1 / (n_samples - 1)` raises `ZeroDivisionError`; the raised error is
embedded as `none`. -/
def cov_matrix_xy {n k l : ℕ} (X : Matrix (Fin n) (Fin k) ℝ)
    (Y : Matrix (Fin n) (Fin l) ℝ) : Option (Matrix (Fin k) (Fin l) ℝ) :=
  if (n : ℤ) - 1 = 0 then none
  else some ((1 / ((n : ℝ) - 1)) • ((centered X)ᵀ * centered Y))

/-- `cov_matrix(X)` from `utils.py` with `Y` not supplied: the
`if Y is None: Y = X` branch makes it the self-covariance `cov_matrix(X, X)`. -/
def cov_matrix {n k : ℕ} (X : Matrix (Fin n) (Fin k) ℝ) :
    Option (Matrix (Fin k) (Fin k) ℝ) :=
  cov_matrix_xy X X

/-- The dataset `[[1,2],[3,4],[5,6]]` of the concrete covariance scenario. -/
def covExample : Matrix (Fin 3) (Fin 2) ℝ :=
  Matrix.of ![![1, 2], ![3, 4], ![5, 6]]

/-- Sum of an elementwise combination of two equal-length lists, rewritten
as a sum over positions. -/
lemma sum_zipWith (f : ℝ → ℝ → ℝ) :
    ∀ (a b : List ℝ), a.length = b.length →
      (List.zipWith f a b).sum =
        ∑ i ∈ Finset.range a.length, f (a.getD i 0) (b.getD i 0)
  | [], _, _ => by simp
  | x :: a, [], h => by simp at h
  | x :: a, y :: b, h => by
      have hh : a.length = b.length := by simpa using h
      have ih := sum_zipWith f a b hh
      simp only [List.zipWith_cons_cons, List.sum_cons, List.length_cons,
        Finset.sum_range_succ', List.getD_cons_succ, List.getD_cons_zero, ih]
      ring

/-- The squared Euclidean norm of the elementwise difference of two
equal-length lists is the sum of the squared elementwise differences. -/
lemma sq_norm_zipWith_sub (a b : List ℝ) (h : a.length = b.length) :
    np_linalg_norm (List.zipWith (fun x y => x - y) a b) ^ 2 =
      ∑ i ∈ Finset.range a.length, (a.getD i 0 - b.getD i 0) ^ 2 := by
  have hnn : 0 ≤ (((List.zipWith (fun x y => x - y) a b).map fun t => t ^ 2)).sum := by
    refine List.sum_nonneg ?_
    intro x hx
    rcases List.mem_map.mp hx with ⟨t, _, rfl⟩
    exact sq_nonneg t
  have hmap : ((List.zipWith (fun x y => x - y) a b).map fun t => t ^ 2) =
      List.zipWith (fun x y => (x - y) ^ 2) a b := by
    rw [List.map_zipWith]
  rw [np_linalg_norm, Real.sq_sqrt hnn, hmap, sum_zipWith _ a b h]

/-- Claim C4: for every pair of equal-length vectors `x1, x2`,
`linear_kernel(x1, x2)` returns the dot product `Σ x1[i]·x2[i]`;
in particular `linear_kernel([1,2,3],[4,5,6])` equals `32`. -/
theorem linear_kernel_c4 (x1 x2 : List ℝ) (h : x1.length = x2.length) :
    linear_kernel x1 x2 = ∑ i ∈ Finset.range x1.length, x1.getD i 0 * x2.getD i 0 ∧
    linear_kernel [1, 2, 3] [4, 5, 6] = 32 := by
  constructor
  · exact sum_zipWith _ x1 x2 h
  · norm_num [linear_kernel, np_inner]

/-- Witness for C4 at `x1 = [1,2,3]`, `x2 = [4,5,6]`. -/
theorem linear_kernel_c4_witness : linear_kernel [1, 2, 3] [4, 5, 6] = 32 :=
  (linear_kernel_c4 [1, 2, 3] [4, 5, 6] rfl).2

/-- Claim C3: for every scalar `const`, every scalar `pow` and every pair
of equal-length vectors `x1, x2`, `polynomial_kernel(const, pow, x1, x2)`
returns `(inner_product(x1, x2) + const) ^ pow`; in particular
`polynomial_kernel(const=1, pow=2, x1=[1,2], x2=[3,4])` equals `144`. -/
theorem polynomial_kernel_c3 (const pw : ℝ) (x1 x2 : List ℝ)
    (h : x1.length = x2.length) :
    polynomial_kernel const pw x1 x2 =
      (∑ i ∈ Finset.range x1.length, x1.getD i 0 * x2.getD i 0 + const) ^ pw ∧
    polynomial_kernel 1 2 [1, 2] [3, 4] = 144 := by
  constructor
  · rw [polynomial_kernel, np_inner, sum_zipWith _ x1 x2 h]
  · rw [polynomial_kernel]
    have h1 : np_inner [1, 2] [3, 4] + 1 = (12 : ℝ) := by norm_num [np_inner]
    rw [h1, show (2 : ℝ) = ((2 : ℕ) : ℝ) by norm_num, Real.rpow_natCast]
    norm_num

/-- Witness for C3 at `const = 1`, `pow = 2`, `x1 = [1,2]`, `x2 = [3,4]`. -/
theorem polynomial_kernel_c3_witness : polynomial_kernel 1 2 [1, 2] [3, 4] = 144 :=
  (polynomial_kernel_c3 1 2 [1, 2] [3, 4] rfl).2

/-- Claim C2: for every `gamma` and every pair of equal-length vectors
`x1, x2`, `rbf_kernel(gamma, x1, x2)` computes the squared Euclidean
distance `d` (the sum of squared elementwise differences) and returns
`exp(-gamma * d)`; in particular `rbf_kernel(0.5, [0,0], [1,1])` equals
`exp(-1)`. -/
theorem rbf_kernel_c2 (gamma : ℝ) (x1 x2 : List ℝ) (h : x1.length = x2.length) :
    rbf_kernel gamma x1 x2 =
      Real.exp (-gamma * ∑ i ∈ Finset.range x1.length, (x1.getD i 0 - x2.getD i 0) ^ 2) ∧
    rbf_kernel (1 / 2) [0, 0] [1, 1] = Real.exp (-1) := by
  constructor
  · rw [rbf_kernel, sq_norm_zipWith_sub x1 x2 h]
  · rw [rbf_kernel, sq_norm_zipWith_sub [0, 0] [1, 1] rfl]
    norm_num [Finset.sum_range_succ]

/-- Witness for C2 at `gamma = 1/2`, `x1 = [0,0]`, `x2 = [1,1]`. -/
theorem rbf_kernel_c2_witness : rbf_kernel (1 / 2) [0, 0] [1, 1] = Real.exp (-1) :=
  (rbf_kernel_c2 (1 / 2) [0, 0] [1, 1] rfl).2

/-- Claim C7: for every vector `a` and every `gamma`,
`rbf_kernel(gamma, a, a)` equals exactly `1`. -/
theorem rbf_kernel_self_c7 (gamma : ℝ) (a : List ℝ) : rbf_kernel gamma a a = 1 := by
  have h : np_linalg_norm (List.zipWith (fun x y => x - y) a a) ^ 2 = 0 := by
    rw [sq_norm_zipWith_sub a a rfl]
    simp
  rw [rbf_kernel, h, mul_zero, Real.exp_zero]

/-- Claim C8: for every pair of equal-length vectors and every `gamma > 0`,
the RBF kernel value lies in the half-open interval `(0, 1]`. -/
theorem rbf_kernel_range_c8 (gamma : ℝ) (x1 x2 : List ℝ) (hg : 0 < gamma)
    (h : x1.length = x2.length) :
    rbf_kernel gamma x1 x2 ∈ Set.Ioc (0 : ℝ) 1 := by
  rw [Set.mem_Ioc, rbf_kernel]
  have h1 : -gamma * np_linalg_norm (List.zipWith (fun a b => a - b) x1 x2) ^ 2 ≤ 0 := by
    rw [neg_mul]
    exact neg_nonpos.mpr (mul_nonneg hg.le (sq_nonneg _))
  exact ⟨Real.exp_pos _, Real.exp_le_one_iff.mpr h1⟩

/-- Witness for C8 at `gamma = 1`, `x1 = [0]`, `x2 = [1]`. -/
theorem rbf_kernel_range_c8_witness : rbf_kernel 1 [0] [1] ∈ Set.Ioc (0 : ℝ) 1 :=
  rbf_kernel_range_c8 1 [0] [1] one_pos rfl

/-- Claim C10: for every `gamma` and every pair of equal-length vectors,
the RBF kernel is symmetric in its two vector arguments. -/
theorem rbf_kernel_symm_c10 (gamma : ℝ) (x1 x2 : List ℝ)
    (h : x1.length = x2.length) :
    rbf_kernel gamma x1 x2 = rbf_kernel gamma x2 x1 := by
  rw [rbf_kernel, rbf_kernel, sq_norm_zipWith_sub x1 x2 h,
    sq_norm_zipWith_sub x2 x1 h.symm, ← h]
  congr 1
  congr 1
  exact Finset.sum_congr rfl fun i _ => by ring

/-- Witness for C10 at `gamma = 1`, `x1 = [0,1]`, `x2 = [2,3]`. -/
theorem rbf_kernel_symm_c10_witness : rbf_kernel 1 [0, 1] [2, 3] = rbf_kernel 1 [2, 3] [0, 1] :=
  rbf_kernel_symm_c10 1 [0, 1] [2, 3] rfl

/-- Evaluation of the concrete covariance scenario: the dataset
`[[1,2],[3,4],[5,6]]` has column means `[3,4]`, centered columns
`[-2,0,2]` in both coordinates, and `1/2 · CᵀC` has every entry `4`. -/
lemma covExample_eval : cov_matrix covExample = some (Matrix.of fun _ _ => (4 : ℝ)) := by
  rw [cov_matrix, cov_matrix_xy, if_neg (by norm_num)]
  congr 1
  ext i j
  fin_cases i <;> fin_cases j <;>
    simp [centered, colMean, covExample, Matrix.mul_apply, Fin.sum_univ_three,
      Matrix.smul_apply, smul_eq_mul, Matrix.cons_val_zero, Matrix.cons_val_one,
      Matrix.head_cons] <;> norm_num

/-- Claim C1: for every matrix `X` with `n ≥ 2` rows (and matrix `Y` with the
same number of rows), `cov_matrix` defaults `Y` to `X` when `Y` is not
supplied and returns `(1/(n-1)) · (X - mean(X))ᵀ · (Y - mean(Y))`, a matrix
of shape `(features(X), features(Y))` (visible in the result type); in
particular `cov_matrix([[1,2],[3,4],[5,6]])` is the `2×2` matrix with `4`
in every entry. -/
theorem cov_matrix_c1 {n k l : ℕ} (X : Matrix (Fin n) (Fin k) ℝ)
    (Y : Matrix (Fin n) (Fin l) ℝ) (hn : 2 ≤ n) :
    cov_matrix X = cov_matrix_xy X X ∧
    cov_matrix_xy X Y = some (Matrix.of fun i j =>
      (1 / ((n : ℝ) - 1)) *
        ∑ s, (X s i - (∑ t, X t i) / n) * (Y s j - (∑ t, Y t j) / n)) ∧
    cov_matrix covExample = some (Matrix.of fun _ _ => (4 : ℝ)) := by
  refine ⟨rfl, ?_, covExample_eval⟩
  rw [cov_matrix_xy, if_neg (by omega)]
  congr 1

/-- Witness for C1 at `X = Y = [[1,2],[3,4],[5,6]]` (so `n = 3 ≥ 2`). -/
theorem cov_matrix_c1_witness :
    cov_matrix covExample = some (Matrix.of fun _ _ => (4 : ℝ)) :=
  (cov_matrix_c1 covExample covExample (by norm_num)).2.2

/-- Claim C5: for a matrix with exactly one row, `cov_matrix` performs the
division `1 / (n_samples - 1)` with the integer divisor `0` without any
guard, and the failure propagates to the caller: the result is the
propagated error (`none`), never a masked or special-cased value. -/
theorem cov_matrix_one_row_c5 {k : ℕ} (X : Matrix (Fin 1) (Fin k) ℝ) :
    cov_matrix X = none := by
  simp [cov_matrix, cov_matrix_xy]

/-- Claim C9: for every matrix `X` with at least 2 rows, the one-argument
self-covariance form `cov_matrix(X)` returns a symmetric matrix. -/
theorem cov_matrix_symm_c9 {n k : ℕ} (X : Matrix (Fin n) (Fin k) ℝ)
    (hn : 2 ≤ n) :
    ∃ M, cov_matrix X = some M ∧ M.IsSymm := by
  refine ⟨(1 / ((n : ℝ) - 1)) • ((centered X)ᵀ * centered X), ?_, ?_⟩
  · rw [cov_matrix, cov_matrix_xy, if_neg (by omega)]
  · show ((1 / ((n : ℝ) - 1)) • ((centered X)ᵀ * centered X))ᵀ = _
    rw [Matrix.transpose_smul, Matrix.transpose_mul, Matrix.transpose_transpose]

/-- Witness for C9 at `X = [[1,2],[3,4],[5,6]]`. -/
theorem cov_matrix_symm_c9_witness :
    ∃ M, cov_matrix covExample = some M ∧ M.IsSymm :=
  cov_matrix_symm_c9 covExample (by norm_num)
